import Mathlib

/-!
Verification of the SGFIRE character-chat application core.

The development shallowly embeds the persistence-facing logic of
`src/main.py`: the data model (`Character`, `Conversation` rows), the
persona store operation `add_character`, the conversation engine
`chat_with_character`, the session-history aggregation
`get_chat_history`, and the pure helper `auto_select_character`.

Database tables are embedded as Lean lists of rows; SQL queries become
filters, stable sorts and folds over those lists; the HTTP model gateway
becomes a function from the prompt string to an abstract response
record; `uuid.uuid4()` and DB-assigned ids/timestamps become explicit
parameters.  Python `None` becomes `Option.none`, and the one place the
code can throw on user data (`len(first_message.user_input)` with a
`NULL` input) is modelled by an `Option`-valued result.
-/

namespace SGFire

/-- Row of the `character` table (src/main.py lines 33-37). -/
structure Character where
  id : Nat
  name : String
  description : String
  prompt_template : String
deriving DecidableEq

/-- Row of the `conversation` table (src/main.py lines 39-48).
Timestamps are embedded as naturals; `chat_id` and `user_input` are
nullable in the schema, hence `Option`. -/
structure Conversation where
  id : Nat
  character_id : Nat
  user_input : Option String
  bot_response : String
  timestamp : Nat
  chat_id : Option String
  user_id : Nat
deriving DecidableEq

/-! ## Persona store -/

/-- Embedding of `Character.query.filter_by(name=name).first()` being
truthy (src/main.py line 94). -/
def characterExists (store : List Character) (name : String) : Bool :=
  store.any (fun c => c.name == name)

/-- Embedding of `add_character` (src/main.py lines 91-110).  The DB
store is passed in and returned explicitly; `nextId` stands for the
autoincrement primary key the DB would assign. -/
def add_character (store : List Character) (nextId : Nat)
    (name description prompt_template : String) : String × List Character :=
  if characterExists store name then
    ("Character \x27" ++ name ++ "\x27 already exists!", store)
  else
    ("Character \x27" ++ name ++ "\x27 added successfully!\nDescription: " ++ description,
     store ++ [{ id := nextId, name := name, description := description,
                 prompt_template := prompt_template }])

/-! ## Timestamp ordering of conversation rows

The SQL `order_by(Conversation.timestamp)` clauses are embedded as
stable insertion sorts by the timestamp field. -/

/-- Ascending-timestamp order on conversation rows. -/
def tsLE (a b : Conversation) : Prop := a.timestamp ≤ b.timestamp

/-- Descending-timestamp order on conversation rows. -/
def tsGE (a b : Conversation) : Prop := b.timestamp ≤ a.timestamp

instance : DecidableRel tsLE := fun a b => Nat.decLe a.timestamp b.timestamp

instance : DecidableRel tsGE := fun a b => Nat.decLe b.timestamp a.timestamp

instance : IsTotal Conversation tsLE :=
  ⟨fun a b => Nat.le_total a.timestamp b.timestamp⟩

instance : IsTrans Conversation tsLE :=
  ⟨fun _ _ _ h1 h2 => Nat.le_trans h1 h2⟩

/-- Embedding of `.order_by(Conversation.timestamp)` (ascending). -/
def sortAsc (l : List Conversation) : List Conversation :=
  List.insertionSort tsLE l

/-- Embedding of `.order_by(Conversation.timestamp.desc())`. -/
def sortDesc (l : List Conversation) : List Conversation :=
  List.insertionSort tsGE l

/-! ## Conversation engine -/

/-- Abstract view of the Gemini HTTP response (src/main.py lines
161-171): the status code, the optional `candidates` array with each
candidate already reduced to its extracted text, and the raw body text
used in the non-200 error message. -/
structure GatewayResponse where
  status : Nat
  candidates : Option (List String)
  text : String

/-- Uniform two-field result of `chat_with_character`, plus the
resulting state of the conversation table. -/
structure ChatResult where
  response : String
  chat_id : Option String
  store : List Conversation
deriving DecidableEq

/-- Python f-string rendering of a nullable column: `None` prints as
the four-character string `None`. -/
def optStr : Option String → String
  | none => "None"
  | some s => s

/-- One item of the context list comprehension (src/main.py line 147). -/
def formatTurn (c : Conversation) : String :=
  "User: " ++ optStr c.user_input ++ "\nBot: " ++ c.bot_response

/-- Embedding of `" ".join([f"User: {...}\nBot: {...}" ...])`
(src/main.py line 147). -/
def context_prompt (prior : List Conversation) : String :=
  String.intercalate " " (prior.map formatTurn)

/-- Embedding of the `full_prompt` f-string (src/main.py line 149). -/
def promptFor (prompt_template : String) (prior : List Conversation)
    (user_input : String) : String :=
  prompt_template ++ "\n" ++ context_prompt prior ++ "\nUser: " ++ user_input ++ "\nBot:"

/-- Modelled from the spec, section 4.3 step 4: the prompt is the
persona template, a newline, the space-joined concatenation of
`User: {u}\nBot: {b}` for each prior turn given as a (user, bot) string
pair, then `\nUser: {new_input}\nBot:`.  Used only to compare the
engine's prompt construction against the specified formula. -/
def spec_full_prompt (prompt_template : String) (prior : List (String × String))
    (new_input : String) : String :=
  prompt_template ++ "\n" ++
    String.intercalate " " (prior.map (fun t => "User: " ++ t.1 ++ "\nBot: " ++ t.2)) ++
    "\nUser: " ++ new_input ++ "\nBot:"

/-- Embedding of `if not chat_id: chat_id = str(uuid.uuid4())`
(src/main.py lines 129-130).  Python truthiness: both `None` and the
empty string count as absent and trigger minting of `fresh`, the value
`str(uuid.uuid4())` would produce. -/
def effectiveChatId (chat_id : Option String) (fresh : String) : String :=
  match chat_id with
  | none => fresh
  | some s => if s = "" then fresh else s

/-- Embedding of the dead `else` branch of the history lookup
(src/main.py lines 140-145): the most recent `limit` turns of
`(user_id, character_id)`, fetched descending then reversed. -/
def recentTurnsForPersona (store : List Conversation) (uid charId limit : Nat) :
    List Conversation :=
  ((sortDesc (store.filter
      (fun c => c.user_id == uid && c.character_id == charId))).take limit).reverse

/-- Embedding of the `previous_conversations` computation (src/main.py
lines 133-146).  `cid` is the effective chat id after minting, so the
`if chat_id:` truthiness test becomes `cid ≠ ""`. -/
def previousConversations (store : List Conversation) (uid : Nat) (cid : String)
    (charId : Nat) : List Conversation :=
  if cid ≠ "" then
    sortAsc (store.filter (fun c => c.user_id == uid && c.chat_id == some cid))
  else
    recentTurnsForPersona store uid charId 10

/-- Embedding of `chat_with_character` (src/main.py lines 121-192).
`gateway` abstracts the `requests.post` call as a function of the
prompt; `fresh` is the uuid that `str(uuid.uuid4())` would mint;
`newId` and `newTs` are the id and timestamp the DB would assign to the
inserted row.  The result carries the returned pair and the resulting
state of the conversation table. -/
def chat_with_character (characters : List Character) (store : List Conversation)
    (gateway : String → GatewayResponse) (fresh : String) (newId newTs : Nat)
    (character_name user_input : String) (user_id : Nat) (chat_id : Option String) :
    ChatResult :=
  match characters.find? (fun c => c.name == character_name) with
  | none => { response := "Character not found.", chat_id := none, store := store }
  | some character =>
    let cid := effectiveChatId chat_id fresh
    let previous := previousConversations store user_id cid character.id
    let full_prompt := promptFor character.prompt_template previous user_input
    let resp := gateway full_prompt
    if resp.status == 200 then
      match resp.candidates with
      | some (bot_response :: _) =>
          { response := bot_response
          , chat_id := some cid
          , store := store ++ [{ id := newId, character_id := character.id,
                                 user_input := some user_input,
                                 bot_response := bot_response, timestamp := newTs,
                                 chat_id := some cid, user_id := user_id }] }
      | some [] =>
          { response := "An error occurred while generating content: Unexpected response format."
          , chat_id := some cid, store := store }
      | none =>
          { response := "An error occurred while generating content: Unexpected response format."
          , chat_id := some cid, store := store }
    else
      { response := "An error occurred while generating content: " ++
          toString resp.status ++ " - " ++ resp.text
      , chat_id := some cid, store := store }

/-! ## Chat history aggregation -/

/-- Embedding of the preview expression (src/main.py line 263) applied
to a non-null `user_input`. -/
def preview (s : String) : String :=
  if s.length > 30 then s.take 30 ++ "..." else s

/-- One row of the `get_chat_history` result.  `start_time` keeps the
raw timestamp (the `strftime` formatting is presentation only);
`character_name` is the looked-up persona name of the session's first
turn, `none` when the foreign key dangles (impossible under the schema
constraint). -/
structure SessionEntry where
  chat_id : Option String
  character_name : Option String
  preview : String
  start_time : Nat
  message_count : Nat
deriving DecidableEq

/-- Descending order on session entries by start time, the
`order_by(db.text('start_time DESC'))` of the grouping query. -/
def entryGE (a b : SessionEntry) : Prop := b.start_time ≤ a.start_time

instance : DecidableRel entryGE := fun a b => Nat.decLe b.start_time a.start_time

instance : IsTotal SessionEntry entryGE :=
  ⟨fun a b => Nat.le_total b.start_time a.start_time⟩

instance : IsTrans SessionEntry entryGE :=
  ⟨fun _ _ _ h1 h2 => Nat.le_trans h2 h1⟩

/-- Rows of the conversation table belonging to `uid`
(`filter(Conversation.user_id == user_id)`). -/
def userRows (store : List Conversation) (uid : Nat) : List Conversation :=
  store.filter (fun c => c.user_id == uid)

/-- The distinct session ids of a user's rows
(`group_by(Conversation.chat_id)`, src/main.py line 243). -/
def sessionIds (store : List Conversation) (uid : Nat) : List (Option String) :=
  ((userRows store uid).map (fun c => c.chat_id)).dedup

/-- Rows of one session (`filter_by(chat_id=chat_id, user_id=user_id)`,
where a `None` chat id matches `IS NULL`). -/
def sessionRows (store : List Conversation) (uid : Nat) (cid : Option String) :
    List Conversation :=
  (userRows store uid).filter (fun c => c.chat_id == cid)

/-- Embedding of `.order_by(Conversation.timestamp).first()`
(src/main.py lines 250-253). -/
def firstMessage (l : List Conversation) : Option Conversation :=
  (sortAsc l).head?

/-- The session's history card (src/main.py lines 248-264), `none` when
the group is empty (the `if first_message:` guard skips it) or when the
first turn's `user_input` is `NULL` and the preview expression would
raise. -/
def sessionEntry (store : List Conversation) (characters : List Character)
    (uid : Nat) (cid : Option String) : Option SessionEntry :=
  match firstMessage (sessionRows store uid cid) with
  | none => none
  | some first =>
    match first.user_input with
    | none => none
    | some ui =>
        some { chat_id := cid
             , character_name :=
                 (characters.find? (fun ch => ch.id == first.character_id)).map
                   (fun ch => ch.name)
             , preview := preview ui
             , start_time := first.timestamp
             , message_count := (sessionRows store uid cid).length }

/-- True exactly when the preview expression of src/main.py line 263
would raise `TypeError` for this session: the group is non-empty and
its first message has a `NULL` `user_input`. -/
def previewCrash (store : List Conversation) (uid : Nat) (cid : Option String) : Bool :=
  match firstMessage (sessionRows store uid cid) with
  | none => false
  | some first => first.user_input.isNone

/-- Embedding of `get_chat_history` (src/main.py lines 235-266).  The
result is `none` when the Python function would raise on a `NULL` first
input, otherwise the session entries ordered by start time
descending. -/
def get_chat_history (store : List Conversation) (characters : List Character)
    (uid : Nat) : Option (List SessionEntry) :=
  let ids := sessionIds store uid
  if ids.any (fun cid => previewCrash store uid cid) then none
  else
    some (List.insertionSort entryGE
      (ids.filterMap (fun cid => sessionEntry store characters uid cid)))

/-! ## Character auto-selection -/

/-- Contiguous-occurrence test on character lists: Python's
`keyword in user_input` substring operator. -/
def occursIn (needle : List Char) : List Char → Bool
  | [] => needle.isPrefixOf []
  | b :: bs => needle.isPrefixOf (b :: bs) || occursIn needle bs

/-- `keyword in user_input` on strings. -/
def strContains (haystack needle : String) : Bool :=
  occursIn needle.toList haystack.toList

/-- Keyword set of src/main.py line 281. -/
def education_keywords : List String :=
  ["learn", "study", "education", "knowledge", "science", "history", "math",
   "theory", "research"]

/-- Keyword set of src/main.py line 282. -/
def entertainment_keywords : List String :=
  ["joke", "funny", "laugh", "entertain", "comedy", "silly"]

/-- Keyword set of src/main.py line 283. -/
def adventure_keywords : List String :=
  ["adventure", "sea", "pirate", "treasure", "sail", "voyage"]

/-- Python `str.lower()`: lower-case every character.  Stated on the
character list so that it evaluates inside the kernel; agrees with
`String.toLower` on every string. -/
def strLower (s : String) : String :=
  String.mk (s.data.map Char.toLower)

/-- `any(keyword in user_input for keyword in kws)`. -/
def containsKeyword (input : String) (kws : List String) : Bool :=
  kws.any (fun k => strContains input k)

/-- Embedding of `auto_select_character` (src/main.py lines 278-292). -/
def auto_select_character (user_input : String) : Option String :=
  let lowered := strLower user_input
  if containsKeyword lowered education_keywords then some "Professor Sage"
  else if containsKeyword lowered entertainment_keywords then some "Chuck the Clown"
  else if containsKeyword lowered adventure_keywords then some "Sarcastic Pirate"
  else none

/-! ## Concrete fixtures used by witnesses and counterexamples -/

/-- The predefined Chuck the Clown persona (src/main.py lines 58-62). -/
def chuckChar : Character :=
  { id := 1
  , name := "Chuck the Clown"
  , description := "A funny clown who tells jokes and entertains."
  , prompt_template := "You are Chuck the Clown, always ready with a joke and entertainment. Be upbeat, silly, and include jokes in your responses." }

/-- A gateway that always fails with HTTP 500. -/
def gw500 : String → GatewayResponse :=
  fun _ => { status := 500, candidates := none, text := "boom" }

/-- A gateway that always succeeds with one candidate. -/
def gw200 : String → GatewayResponse :=
  fun _ => { status := 200, candidates := some ["ok"], text := "" }

/-- One stored turn of the fixture history: turn `i` carries timestamp
`i` under session id `old` for user 1 and persona 1. -/
def mkRow (i : Nat) : Conversation :=
  { id := i, character_id := 1, user_input := some "q", bot_response := "a",
    timestamp := i, chat_id := some "old", user_id := 1 }

/-- Fifteen prior turns for user 1 with persona 1. -/
def store15 : List Conversation :=
  (List.range 15).map (fun i => mkRow (i + 1))

/-- Two-session history fixture for user 1. -/
def exRow1 : Conversation :=
  { id := 1, character_id := 1, user_input := some "hello", bot_response := "hi there",
    timestamp := 5, chat_id := some "s1", user_id := 1 }

/-- Second fixture row, in a younger session. -/
def exRow2 : Conversation :=
  { id := 2, character_id := 1, user_input := some "newer", bot_response := "yo",
    timestamp := 9, chat_id := some "s2", user_id := 1 }

/-- Fixture conversation table with two sessions. -/
def exStore : List Conversation := [exRow1, exRow2]

/-- Fixture persona table. -/
def exChars : List Character := [chuckChar]

/-- Expected `get_chat_history` output on the fixture: sessions ordered
by start time descending. -/
def exRes : List SessionEntry :=
  [ { chat_id := some "s2", character_name := some "Chuck the Clown",
      preview := "newer", start_time := 9, message_count := 1 }
  , { chat_id := some "s1", character_name := some "Chuck the Clown",
      preview := "hello", start_time := 5, message_count := 1 } ]

/-- A history whose only session begins with a system-only turn
(`user_input` NULL). -/
def badStore : List Conversation :=
  [{ id := 1, character_id := 1, user_input := none, bot_response := "sys",
     timestamp := 3, chat_id := some "s1", user_id := 1 }]

/-- A gateway response that `chat_with_character` treats as a failure:
non-200 status, or a 200 payload whose `candidates` key is missing or
an empty array (src/main.py lines 168-188). -/
def gatewayFails (r : GatewayResponse) : Prop :=
  r.status ≠ 200 ∨ r.candidates = none ∨ r.candidates = some []

end SGFire

namespace SGFire

/-! ## Claim theorems -/

/-- C1: the claim says that with 15 prior turns stored for a
(user, persona) pair and no session_id supplied, the prompt context is
the 10 most recent of those turns oldest-first.  The code instead mints
the fresh session id before the history branch, so the history lookup
filters on the brand-new id and the context is empty; the
recent-10-per-persona branch the claim describes (and the code's own
comment announces) is unreachable.  This theorem evaluates the code at
the failing input: 15 stored turns for user 1 / persona 1, no
session_id (fresh uuid `f1`): the context used is `[]`, while the
claimed context (the dead branch's own computation) has the 10 turns
with timestamps 6..15 oldest-first. -/
theorem C1_no_session_context_is_empty :
    store15.length = 15 ∧
    (∀ c ∈ store15, c.user_id = 1 ∧ c.character_id = 1) ∧
    previousConversations store15 1 (effectiveChatId none "f1") 1 = [] ∧
    (recentTurnsForPersona store15 1 1 10).length = 10 ∧
    (recentTurnsForPersona store15 1 1 10).map (fun c => c.timestamp)
      = [6, 7, 8, 9, 10, 11, 12, 13, 14, 15] := by decide

/-- C4: for every persona name absent from the persona store,
`chat_with_character` returns the not-found indication with a null
session field and leaves the conversation table untouched. -/
theorem C4_persona_not_found_no_write (characters : List Character)
    (store : List Conversation) (gateway : String → GatewayResponse)
    (fresh : String) (newId newTs : Nat) (character_name user_input : String)
    (user_id : Nat) (chat_id : Option String)
    (h : ∀ c ∈ characters, c.name ≠ character_name) :
    chat_with_character characters store gateway fresh newId newTs character_name
        user_input user_id chat_id
      = { response := "Character not found.", chat_id := none, store := store } := by
  have hfind : characters.find? (fun c => c.name == character_name) = none := by
    rw [List.find?_eq_none]
    intro c hc
    simpa using h c hc
  simp [chat_with_character, hfind]

/-- C4 witness: an empty persona store rejects the name `Ghost` and
writes nothing. -/
theorem C4_witness :
    chat_with_character exChars [] gw200 "f1" 0 0 "Ghost" "hi" 1 (some "abc")
      = { response := "Character not found.", chat_id := none, store := [] } :=
  C4_persona_not_found_no_write exChars [] gw200 "f1" 0 0 "Ghost" "hi" 1
    (some "abc") (by decide)

/-- C5: the prompt the engine sends to the gateway is exactly the
persona template, a newline, the space-joined `User: {u}\nBot: {b}`
renderings of the prior turns in order, then `\nUser: {input}\nBot:`,
as the spec formula states. -/
theorem C5_prompt_equals_spec_formula (prompt_template : String)
    (prior : List Conversation) (new_input : String) :
    promptFor prompt_template prior new_input
      = spec_full_prompt prompt_template
          (prior.map (fun c => (optStr c.user_input, c.bot_response))) new_input := by
  simp only [promptFor, spec_full_prompt, context_prompt, List.map_map]
  rfl

/-- C6: the session preview is the first-turn input unchanged when its
length is at most 30, and its first 30 characters followed by an
ellipsis when longer. -/
theorem C6_preview_truncation (s : String) :
    (s.length ≤ 30 → preview s = s) ∧
    (30 < s.length → preview s = s.take 30 ++ "...") := by
  unfold preview
  exact ⟨fun h => by rw [if_neg (by omega)], fun h => by rw [if_pos (by omega)]⟩

/-- C6 witness: a 5-character input is unchanged and a 36-character
input is truncated to 30 characters plus the ellipsis. -/
theorem C6_witness :
    preview "hello" = "hello" ∧
    preview "abcdefghijklmnopqrstuvwxyz0123456789"
      = "abcdefghijklmnopqrstuvwxyz0123456789".take 30 ++ "..." :=
  ⟨(C6_preview_truncation "hello").1 (by decide),
   (C6_preview_truncation "abcdefghijklmnopqrstuvwxyz0123456789").2 (by decide)⟩

/-- C7: `auto_select_character` lower-cases its input, tests the three
keyword sets in the priority order education, entertainment, adventure,
returns the persona name of the first set with a keyword occurring in
the lowered input, and returns no selection when none occurs.  As a
plain function of its input it is deterministic, effect-free and
total. -/
theorem C7_auto_select_priority (s : String) :
    (containsKeyword (strLower s) education_keywords = true →
      auto_select_character s = some "Professor Sage") ∧
    (containsKeyword (strLower s) education_keywords = false →
     containsKeyword (strLower s) entertainment_keywords = true →
      auto_select_character s = some "Chuck the Clown") ∧
    (containsKeyword (strLower s) education_keywords = false →
     containsKeyword (strLower s) entertainment_keywords = false →
     containsKeyword (strLower s) adventure_keywords = true →
      auto_select_character s = some "Sarcastic Pirate") ∧
    (containsKeyword (strLower s) education_keywords = false →
     containsKeyword (strLower s) entertainment_keywords = false →
     containsKeyword (strLower s) adventure_keywords = false →
      auto_select_character s = none) := by
  refine ⟨fun h1 => ?_, fun h1 h2 => ?_, fun h1 h2 h3 => ?_, fun h1 h2 h3 => ?_⟩ <;>
    simp_all [auto_select_character]

/-- C7 witness: `tell me a joke` matches no education keyword, matches
the entertainment set, and selects Chuck the Clown. -/
theorem C7_witness :
    auto_select_character "tell me a joke" = some "Chuck the Clown" :=
  (C7_auto_select_priority "tell me a joke").2.1 (by decide) (by decide)

/-- C8: creating a persona under a name already present returns the
already-exists rejection and leaves the store unchanged; creating under
a fresh name appends exactly one persona with that name. -/
theorem C8_create_uniqueness (store : List Character) (nextId : Nat)
    (name description prompt_template : String) :
    ((∃ c ∈ store, c.name = name) →
        add_character store nextId name description prompt_template
          = ("Character \x27" ++ name ++ "\x27 already exists!", store)) ∧
    ((∀ c ∈ store, c.name ≠ name) →
        add_character store nextId name description prompt_template
          = ("Character \x27" ++ name ++ "\x27 added successfully!\nDescription: "
               ++ description,
             store ++ [{ id := nextId, name := name, description := description,
                         prompt_template := prompt_template }]) ∧
        ((add_character store nextId name description prompt_template).2.filter
            (fun c => c.name == name)).length = 1) := by
  constructor
  · rintro ⟨c, hc, hname⟩
    have hex : characterExists store name = true := by
      simp [characterExists, List.any_eq_true]
      exact ⟨c, hc, by simp [hname]⟩
    simp [add_character, hex]
  · intro h
    have hex : characterExists store name = false := by
      simp [characterExists, List.any_eq_false]
      intro c hc
      simpa using h c hc
    have hfilter : store.filter (fun c => c.name == name) = [] := by
      rw [List.filter_eq_nil_iff]
      intro c hc
      simpa using h c hc
    refine ⟨by simp [add_character, hex], ?_⟩
    simp [add_character, hex, List.filter_append, hfilter]

/-- C8 witness: re-creating `Chuck the Clown` is rejected with the
store unchanged, while a fresh name is appended and appears exactly
once. -/
theorem C8_witness :
    (add_character [chuckChar] 9 "Chuck the Clown" "d" "p"
      = ("Character \x27Chuck the Clown\x27 already exists!", [chuckChar])) ∧
    ((add_character [chuckChar] 9 "NewGuy" "d" "p").2.filter
        (fun c => c.name == "NewGuy")).length = 1 :=
  ⟨(C8_create_uniqueness [chuckChar] 9 "Chuck the Clown" "d" "p").1
      ⟨chuckChar, by decide, by decide⟩,
   ((C8_create_uniqueness [chuckChar] 9 "NewGuy" "d" "p").2 (by decide)).2⟩

end SGFire

namespace SGFire

/-- C2 counterexample: the claim as stated fails for the supplied
session id `""`.  Python truthiness treats the empty string as absent,
so the engine mints the fresh id `f1` and returns it, not the supplied
session id, even though the gateway failed with HTTP 500. -/
theorem C2_counterexample :
    (chat_with_character [chuckChar] [] gw500 "f1" 0 0 "Chuck the Clown" "hi" 1
        (some "")).chat_id = some "f1" ∧
    ¬ (chat_with_character [chuckChar] [] gw500 "f1" 0 0 "Chuck the Clown" "hi" 1
        (some "")).chat_id = some "" := by decide

/-- C2 (amended): for every call that supplies a non-empty session id
and resolves its persona, if the gateway fails (non-200 status, or a
200 payload with a missing or empty candidates array) then the call
returns one of the two formatted error strings together with the
supplied session id unchanged, and the conversation table is not
written. -/
theorem C2_gateway_failure_no_write (characters : List Character)
    (store : List Conversation) (gateway : String → GatewayResponse)
    (fresh : String) (newId newTs : Nat) (character_name user_input : String)
    (user_id : Nat) (s : String) (ch : Character)
    (hs : s ≠ "")
    (hfound : characters.find? (fun c => c.name == character_name) = some ch)
    (hfail : ∀ p, gatewayFails (gateway p)) :
    (chat_with_character characters store gateway fresh newId newTs character_name
        user_input user_id (some s)).store = store ∧
    (chat_with_character characters store gateway fresh newId newTs character_name
        user_input user_id (some s)).chat_id = some s ∧
    ((chat_with_character characters store gateway fresh newId newTs character_name
        user_input user_id (some s)).response
        = "An error occurred while generating content: Unexpected response format." ∨
     ∃ tail, (chat_with_character characters store gateway fresh newId newTs
        character_name user_input user_id (some s)).response
        = "An error occurred while generating content: " ++ tail) := by
  have hcid : effectiveChatId (some s) fresh = s := by
    simp [effectiveChatId, hs]
  simp only [chat_with_character, hfound, hcid]
  rcases hfail (promptFor ch.prompt_template
      (previousConversations store user_id s ch.id) user_input) with h | h | h
  · rw [if_neg (by simpa using h)]
    exact ⟨rfl, rfl, Or.inr ⟨_, rfl⟩⟩
  · by_cases hstat : (gateway (promptFor ch.prompt_template
        (previousConversations store user_id s ch.id) user_input)).status = 200
    · rw [if_pos (by simpa using hstat), h]
      exact ⟨rfl, rfl, Or.inl rfl⟩
    · rw [if_neg (by simpa using hstat)]
      exact ⟨rfl, rfl, Or.inr ⟨_, rfl⟩⟩
  · by_cases hstat : (gateway (promptFor ch.prompt_template
        (previousConversations store user_id s ch.id) user_input)).status = 200
    · rw [if_pos (by simpa using hstat), h]
      exact ⟨rfl, rfl, Or.inl rfl⟩
    · rw [if_neg (by simpa using hstat)]
      exact ⟨rfl, rfl, Or.inr ⟨_, rfl⟩⟩

/-- C2 witness: supplied session id `abc` with a gateway that always
returns HTTP 500: the result keeps the session id, writes nothing and
carries the formatted error string. -/
theorem C2_witness :
    (chat_with_character [chuckChar] [] gw500 "f1" 0 0 "Chuck the Clown" "hi" 1
        (some "abc")).store = [] ∧
    (chat_with_character [chuckChar] [] gw500 "f1" 0 0 "Chuck the Clown" "hi" 1
        (some "abc")).chat_id = some "abc" ∧
    ((chat_with_character [chuckChar] [] gw500 "f1" 0 0 "Chuck the Clown" "hi" 1
        (some "abc")).response
        = "An error occurred while generating content: Unexpected response format." ∨
     ∃ tail, (chat_with_character [chuckChar] [] gw500 "f1" 0 0 "Chuck the Clown"
        "hi" 1 (some "abc")).response
        = "An error occurred while generating content: " ++ tail) :=
  C2_gateway_failure_no_write [chuckChar] [] gw500 "f1" 0 0 "Chuck the Clown" "hi" 1
    "abc" chuckChar (by decide) (by decide)
    (fun _ => Or.inl (by show (500 : Nat) ≠ 200; decide))

/-- C3 counterexample: the claim as stated fails on the persona-not-found
path: with session id `abc` supplied and an unknown persona name, the
returned session field is `none`, not the supplied (or a minted)
session id. -/
theorem C3_counterexample :
    (chat_with_character [] [] gw500 "f1" 0 0 "Ghost" "hi" 1 (some "abc")).chat_id
      = none ∧
    ¬ (chat_with_character [] [] gw500 "f1" 0 0 "Ghost" "hi" 1
        (some "abc")).chat_id = some "abc" ∧
    ¬ (chat_with_character [] [] gw500 "f1" 0 0 "Ghost" "hi" 1
        (some "abc")).chat_id = some "f1" := by decide

/-- C3 (amended): the engine is total (never raises in the embedding)
and always returns the uniform two-field result; its session field is
the supplied-or-minted session id on every path except persona
resolution failure, where it is null. -/
theorem C3_uniform_session_field (characters : List Character)
    (store : List Conversation) (gateway : String → GatewayResponse)
    (fresh : String) (newId newTs : Nat) (character_name user_input : String)
    (user_id : Nat) (chat_id : Option String) :
    (chat_with_character characters store gateway fresh newId newTs character_name
        user_input user_id chat_id).chat_id
      = if (characters.find? (fun c => c.name == character_name)).isSome
        then some (effectiveChatId chat_id fresh) else none := by
  rcases hfind : characters.find? (fun c => c.name == character_name) with _ | ch
  · simp [chat_with_character, hfind]
  · simp only [chat_with_character, hfind, Option.isSome_some, if_true]
    split
    · split <;> rfl
    · rfl

end SGFire

namespace SGFire

/-! ## Helper lemmas for the history aggregation -/

/-- The first message of a row list belongs to the list and carries the
minimum timestamp. -/
theorem firstMessage_mem_min (l : List Conversation) (f : Conversation)
    (h : firstMessage l = some f) :
    f ∈ l ∧ ∀ r ∈ l, f.timestamp ≤ r.timestamp := by
  unfold firstMessage at h
  have hperm : List.Perm (sortAsc l) l := List.perm_insertionSort tsLE l
  have hsorted : List.Sorted tsLE (sortAsc l) := List.sorted_insertionSort tsLE l
  rcases hsort : sortAsc l with _ | ⟨a, t⟩
  · rw [hsort] at h; cases h
  · rw [hsort] at h hperm hsorted
    have haf : a = f := by simpa using h
    subst haf
    refine ⟨hperm.subset (List.mem_cons_self a t), ?_⟩
    intro r hr
    rcases List.mem_cons.mp (hperm.symm.subset hr) with h1 | h1
    · subst h1; exact Nat.le_refl _
    · exact (List.sorted_cons.mp hsorted).1 r h1

/-- A session id of a user has at least one row in its session. -/
theorem sessionRows_ne_nil (store : List Conversation) (uid : Nat)
    (cid : Option String) (h : cid ∈ sessionIds store uid) :
    sessionRows store uid cid ≠ [] := by
  unfold sessionIds at h
  rw [List.mem_dedup, List.mem_map] at h
  rcases h with ⟨c, hc, hcid⟩
  intro hnil
  have hmem : c ∈ sessionRows store uid cid := by
    unfold sessionRows
    rw [List.mem_filter]
    exact ⟨hc, by simp [hcid]⟩
  rw [hnil] at hmem
  cases hmem

/-- A non-empty row list has a first message. -/
theorem firstMessage_isSome_of_ne_nil (l : List Conversation) (h : l ≠ []) :
    ∃ f, firstMessage l = some f := by
  unfold firstMessage
  have hperm : List.Perm (sortAsc l) l := List.perm_insertionSort tsLE l
  rcases hsort : sortAsc l with _ | ⟨a, t⟩
  · rw [hsort] at hperm
    exact absurd hperm.nil_eq.symm h
  · exact ⟨a, rfl⟩

/-- On a crash-free session of a user, `sessionEntry` yields the record
built from the session's first message. -/
theorem sessionEntry_eq_some (store : List Conversation) (characters : List Character)
    (uid : Nat) (cid : Option String)
    (hmem : cid ∈ sessionIds store uid)
    (hnc : previewCrash store uid cid = false) :
    ∃ f ui, firstMessage (sessionRows store uid cid) = some f ∧
      f.user_input = some ui ∧
      sessionEntry store characters uid cid
        = some { chat_id := cid
               , character_name :=
                   (characters.find? (fun ch => ch.id == f.character_id)).map
                     (fun ch => ch.name)
               , preview := preview ui
               , start_time := f.timestamp
               , message_count := (sessionRows store uid cid).length } := by
  obtain ⟨f, hf⟩ :=
    firstMessage_isSome_of_ne_nil _ (sessionRows_ne_nil store uid cid hmem)
  have hnc' : f.user_input.isNone = false := by
    unfold previewCrash at hnc
    rw [hf] at hnc
    exact hnc
  rcases hui : f.user_input with _ | ui
  · rw [hui] at hnc'; cases hnc'
  · refine ⟨f, ui, hf, hui, ?_⟩
    unfold sessionEntry
    simp only [hf, hui]

/-- Pointwise-defined `filterMap` of session entries maps back to the
id list. -/
theorem filterMap_chatIds (store : List Conversation) (characters : List Character)
    (uid : Nat) (ids : List (Option String))
    (h : ∀ cid ∈ ids, ∃ e, sessionEntry store characters uid cid = some e ∧
        e.chat_id = cid) :
    (ids.filterMap (fun cid => sessionEntry store characters uid cid)).map
        (fun e => e.chat_id) = ids := by
  induction ids with
  | nil => rfl
  | cons a t ih =>
    obtain ⟨e, he, hid⟩ := h a (List.mem_cons_self a t)
    rw [List.filterMap_cons, he]
    simp only [List.map_cons]
    rw [hid, ih (fun cid hc => h cid (List.mem_cons_of_mem a hc))]

end SGFire

namespace SGFire

/-- C9: whenever `get_chat_history` returns a result for a user, that
result has exactly one entry per distinct session id of the user's
turns (the entries' session ids are a permutation of those ids), is
ordered by start time descending, and every entry carries the persona
name referenced by the session's first turn, the first-turn preview,
the session's minimum timestamp as start time, and the count of the
session's turns. -/
theorem C9_sessions_for_user (store : List Conversation)
    (characters : List Character) (uid : Nat) (res : List SessionEntry)
    (h : get_chat_history store characters uid = some res) :
    List.Perm (res.map (fun e => e.chat_id)) (sessionIds store uid) ∧
    List.Sorted entryGE res ∧
    ∀ e ∈ res, ∃ cid ∈ sessionIds store uid, ∃ f, ∃ ui,
      firstMessage (sessionRows store uid cid) = some f ∧
      f.user_input = some ui ∧
      e.chat_id = cid ∧
      e.character_name
        = (characters.find? (fun ch => ch.id == f.character_id)).map
            (fun ch => ch.name) ∧
      e.preview = preview ui ∧
      e.start_time = f.timestamp ∧
      f ∈ sessionRows store uid cid ∧
      (∀ r ∈ sessionRows store uid cid, e.start_time ≤ r.timestamp) ∧
      e.message_count = (sessionRows store uid cid).length := by
  simp only [get_chat_history] at h
  split at h
  · cases h
  · rename_i hcrash
    have hnc : ∀ cid ∈ sessionIds store uid, previewCrash store uid cid = false := by
      intro cid hcid
      rcases Bool.eq_false_or_eq_true (previewCrash store uid cid) with h0 | h1
      · exact absurd (List.any_eq_true.mpr ⟨cid, hcid, h0⟩) hcrash
      · exact h1
    have hsome : ∀ cid ∈ sessionIds store uid,
        ∃ e, sessionEntry store characters uid cid = some e ∧ e.chat_id = cid := by
      intro cid hcid
      obtain ⟨f, ui, _, _, he⟩ :=
        sessionEntry_eq_some store characters uid cid hcid (hnc cid hcid)
      exact ⟨_, he, rfl⟩
    have hmapids :
        ((sessionIds store uid).filterMap
            (fun cid => sessionEntry store characters uid cid)).map
          (fun e => e.chat_id) = sessionIds store uid :=
      filterMap_chatIds store characters uid (sessionIds store uid) hsome
    cases h
    refine ⟨?_, ?_, ?_⟩
    · have hp : List.Perm
          (List.insertionSort entryGE
            ((sessionIds store uid).filterMap
              (fun cid => sessionEntry store characters uid cid)))
          ((sessionIds store uid).filterMap
            (fun cid => sessionEntry store characters uid cid)) :=
        List.perm_insertionSort entryGE _
      have := hp.map (fun e => e.chat_id)
      rwa [hmapids] at this
    · exact List.sorted_insertionSort entryGE _
    · intro e he
      have hefm : e ∈ (sessionIds store uid).filterMap
          (fun cid => sessionEntry store characters uid cid) :=
        (List.perm_insertionSort entryGE _).subset he
      obtain ⟨cid, hcid, hse⟩ := List.mem_filterMap.mp hefm
      obtain ⟨f, ui, hf, hui, he'⟩ :=
        sessionEntry_eq_some store characters uid cid hcid (hnc cid hcid)
      rw [hse] at he'
      have heq := Option.some.inj he'
      obtain ⟨hfmem, hfmin⟩ := firstMessage_mem_min _ _ hf
      subst heq
      exact ⟨cid, hcid, f, ui, hf, hui, rfl, rfl, rfl, rfl, hfmem, hfmin, rfl⟩

end SGFire

namespace SGFire

/-- C9 witness: on the two-session fixture for user 1 the history is
the concretely evaluated `exRes` and satisfies every clause of the
shape theorem. -/
theorem C9_witness :
    List.Perm (exRes.map (fun e => e.chat_id)) (sessionIds exStore 1) ∧
    List.Sorted entryGE exRes ∧
    ∀ e ∈ exRes, ∃ cid ∈ sessionIds exStore 1, ∃ f, ∃ ui,
      firstMessage (sessionRows exStore 1 cid) = some f ∧
      f.user_input = some ui ∧
      e.chat_id = cid ∧
      e.character_name
        = (exChars.find? (fun ch => ch.id == f.character_id)).map
            (fun ch => ch.name) ∧
      e.preview = preview ui ∧
      e.start_time = f.timestamp ∧
      f ∈ sessionRows exStore 1 cid ∧
      (∀ r ∈ sessionRows exStore 1 cid, e.start_time ≤ r.timestamp) ∧
      e.message_count = (sessionRows exStore 1 cid).length :=
  C9_sessions_for_user exStore exChars 1 exRes (by decide)

/-- C10: the preview computation makes `get_chat_history` not total.
First conjunct: on a store whose only session starts with a NULL
`user_input`, the embedded function yields `none` (the Python code
raises `TypeError` on `len(first_message.user_input)`).  Second
conjunct: under the precondition that every session's first turn has a
non-null `user_input`, `get_chat_history` always returns a result. -/
theorem C10_preview_totality_precondition :
    get_chat_history badStore exChars 1 = none ∧
    ∀ (store : List Conversation) (characters : List Character) (uid : Nat),
      (∀ cid ∈ sessionIds store uid, ∀ f,
          firstMessage (sessionRows store uid cid) = some f →
          f.user_input ≠ none) →
      (get_chat_history store characters uid).isSome = true := by
  constructor
  · decide
  · intro store characters uid hpre
    simp only [get_chat_history]
    split
    · rename_i hcrash
      exfalso
      obtain ⟨cid, hcid, hc⟩ := List.any_eq_true.mp hcrash
      rcases hfm : firstMessage (sessionRows store uid cid) with _ | f
      · unfold previewCrash at hc
        rw [hfm] at hc
        simp at hc
      · have hnone : f.user_input.isNone = true := by
          unfold previewCrash at hc
          rw [hfm] at hc
          exact hc
        exact hpre cid hcid f hfm (Option.isNone_iff_eq_none.mp hnone)
    · rfl

/-- C10 witness: on the fixture whose sessions all start with non-null
inputs, the precondition holds and the history is returned. -/
theorem C10_witness : (get_chat_history exStore exChars 1).isSome = true := by
  refine C10_preview_totality_precondition.2 exStore exChars 1 ?_
  intro cid hcid f hf
  have hcid2 : cid = some "s1" ∨ cid = some "s2" := by
    have hids : sessionIds exStore 1 = [some "s1", some "s2"] := by decide
    rw [hids] at hcid
    simpa using hcid
  rcases hcid2 with h | h
  · subst h
    have h1 : firstMessage (sessionRows exStore 1 (some "s1")) = some exRow1 := by
      decide
    rw [h1] at hf
    injection hf with hf
    subst hf
    decide
  · subst h
    have h2 : firstMessage (sessionRows exStore 1 (some "s2")) = some exRow2 := by
      decide
    rw [h2] at hf
    injection hf with hf
    subst hf
    decide

end SGFire
